import Mathlib

/-!
Verification of the Solar Farm Estimator core functions
(`estimate_peak_sun_hours` and `calculate_solar_farm_metrics` from
`solar_farm_estimator.py`), embedded over the rationals.

The Python `ValueError` is modelled as `Except.error` carrying the exact
message string; `float('inf')` for the break-even time is modelled as
`none : Option ℚ` (with `some y` for a finite number of years).
-/

namespace SolarFarm

/-- The exact message of the `ValueError` raised for an out-of-range latitude. -/
def latErrMsg : String := "Latitude must be between -90 and 90 degrees."

/-- The 20-entry city-to-latitude table from the source. -/
def cities : List (String × ℚ) :=
  [("London, UK", 51.5),
   ("Edinburgh, UK", 55.95),
   ("Cardiff, UK", 51.48),
   ("Belfast, UK", 54.6),
   ("Manchester, UK", 53.48),
   ("Birmingham, UK", 52.48),
   ("Glasgow, UK", 55.86),
   ("Liverpool, UK", 53.41),
   ("Bristol, UK", 51.45),
   ("Sheffield, UK", 53.38),
   ("New York, USA", 40.71),
   ("Sydney, Australia", -33.87),
   ("Tokyo, Japan", 35.68),
   ("Cape Town, South Africa", -33.92),
   ("Rio de Janeiro, Brazil", -22.91),
   ("Mumbai, India", 19.08),
   ("Beijing, China", 39.90),
   ("Moscow, Russia", 55.75),
   ("Dubai, UAE", 25.20),
   ("Toronto, Canada", 43.65)]

/-- Embedding of `estimate_peak_sun_hours`: take `|latitude|`, raise
`ValueError` when it exceeds 90, otherwise return `6 - 4*lat/90` clamped
below at 2. -/
def estimate_peak_sun_hours (latitude : ℚ) : Except String ℚ :=
  let lat := |latitude|
  if 90 < lat then Except.error latErrMsg
  else Except.ok (max (6 - 4 * lat / 90) 2)

/-- The ten-element tuple returned by `calculate_solar_farm_metrics`, as a
record in the source's return order. `break_even_years = none` stands for
`float('inf')`. -/
structure FarmMetrics where
  annual_energy_kwh : ℚ
  annual_revenue_gbp : ℚ
  total_upfront_costs_gbp : ℚ
  annual_running_costs : ℚ
  net_annual_profit_gbp : ℚ
  break_even_years : Option ℚ
  annual_carbon_offset_tonnes : ℚ
  pitches_equivalent : ℚ
  number_of_homes : ℚ
  equivalent_cars : ℚ
  deriving DecidableEq, Repr

/-- Embedding of `calculate_solar_farm_metrics`: the single-pass computation
of the ten metrics, propagating the sun-hours error unchanged. -/
def calculate_solar_farm_metrics (latitude land_size_m2
    electricity_price_gbp_per_kwh upfront_costs_per_m2
    annual_running_costs : ℚ) : Except String FarmMetrics :=
  let panel_area_per_kw : ℚ := 10
  let carbon_offset_kg_per_kwh : ℚ := 0.5
  let avg_home_consumption_kwh : ℚ := 3500
  let co2_per_car_tonnes : ℚ := 4.6
  let system_size_kw := land_size_m2 / panel_area_per_kw
  match estimate_peak_sun_hours latitude with
  | Except.error e => Except.error e
  | Except.ok psh =>
    let daily_energy_kwh := system_size_kw * psh
    let annual_energy_kwh := daily_energy_kwh * 365
    let annual_revenue_gbp := annual_energy_kwh * electricity_price_gbp_per_kwh
    let total_upfront_costs_gbp := upfront_costs_per_m2 * land_size_m2
    let net_annual_profit_gbp := annual_revenue_gbp - annual_running_costs
    let break_even_years : Option ℚ :=
      if 0 < net_annual_profit_gbp then
        some (total_upfront_costs_gbp / net_annual_profit_gbp)
      else none
    let annual_carbon_offset_tonnes :=
      annual_energy_kwh * carbon_offset_kg_per_kwh / 1000
    let football_pitch_m2 : ℚ := 7140
    let pitches_equivalent := land_size_m2 / football_pitch_m2
    let number_of_homes := annual_energy_kwh / avg_home_consumption_kwh
    let equivalent_cars := annual_carbon_offset_tonnes / co2_per_car_tonnes
    Except.ok
      { annual_energy_kwh := annual_energy_kwh
        annual_revenue_gbp := annual_revenue_gbp
        total_upfront_costs_gbp := total_upfront_costs_gbp
        annual_running_costs := annual_running_costs
        net_annual_profit_gbp := net_annual_profit_gbp
        break_even_years := break_even_years
        annual_carbon_offset_tonnes := annual_carbon_offset_tonnes
        pitches_equivalent := pitches_equivalent
        number_of_homes := number_of_homes
        equivalent_cars := equivalent_cars }

/-- Modelled from the spec: the reference formulas of section 4.2, with the
sun-hours value `max (6 - 4*|lat|/90) 2` of section 4.1. Used to compare
the implementation against the spec's formula list. -/
def spec_sun_hours (latitude : ℚ) : ℚ :=
  max (6 - 4 * |latitude| / 90) 2

/-- Modelled from the spec: the ten metrics exactly as the spec's reference
formula list states them (steps 1-11 of section 4.2). -/
def spec_metrics (latitude land_area electricity_price upfront_cost_rate
    annual_running_cost : ℚ) : FarmMetrics :=
  let system_size_kw := land_area / 10
  let daily_energy := system_size_kw * spec_sun_hours latitude
  let annual_energy := daily_energy * 365
  let annual_revenue := annual_energy * electricity_price
  let upfront_cost_total := upfront_cost_rate * land_area
  let net_annual_profit := annual_revenue - annual_running_cost
  { annual_energy_kwh := annual_energy
    annual_revenue_gbp := annual_revenue
    total_upfront_costs_gbp := upfront_cost_total
    annual_running_costs := annual_running_cost
    net_annual_profit_gbp := net_annual_profit
    break_even_years :=
      if 0 < net_annual_profit then some (upfront_cost_total / net_annual_profit)
      else none
    annual_carbon_offset_tonnes := annual_energy * 0.5 / 1000
    pitches_equivalent := land_area / 7140
    number_of_homes := annual_energy / 3500
    equivalent_cars := annual_energy * 0.5 / 1000 / 4.6 }

/-- The unclamped affine sun-hours formula, for the clamp-redundancy claim. -/
def sun_hours_unclamped (latitude : ℚ) : ℚ :=
  6 - 4 * |latitude| / 90

/-- Helper: on the valid domain the estimator succeeds with the clamped value. -/
theorem estimate_ok (latitude : ℚ) (h : |latitude| ≤ 90) :
    estimate_peak_sun_hours latitude =
      Except.ok (max (6 - 4 * |latitude| / 90) 2) := by
  simp [estimate_peak_sun_hours, not_lt.mpr h]

/-- C2: on the valid domain, `estimate_peak_sun_hours latitude` equals the
affine formula `6 - 4*|latitude|/90` clamped below at 2. -/
theorem peak_sun_hours_formula (latitude : ℚ) (h : |latitude| ≤ 90) :
    estimate_peak_sun_hours latitude =
      Except.ok (max (6 - 4 * |latitude| / 90) 2) :=
  estimate_ok latitude h

/-- Witness for C2 at latitude 51.5. -/
theorem peak_sun_hours_formula_witness :
    |(51.5 : ℚ)| ≤ 90 ∧
      estimate_peak_sun_hours 51.5 =
        Except.ok (max (6 - 4 * |(51.5 : ℚ)| / 90) 2) :=
  ⟨by norm_num [abs_le], peak_sun_hours_formula 51.5 (by norm_num [abs_le])⟩

/-- C1: for every latitude in range and non-negative area, price, cost rate
and running cost, the implementation returns exactly the metrics given by
the spec's reference formulas. -/
theorem metrics_match_spec (lat area price rate run : ℚ)
    (h : |lat| ≤ 90) (hA : 0 ≤ area) (hP : 0 ≤ price)
    (hU : 0 ≤ rate) (hR : 0 ≤ run) :
    calculate_solar_farm_metrics lat area price rate run =
      Except.ok (spec_metrics lat area price rate run) := by
  simp only [calculate_solar_farm_metrics, estimate_ok lat h, spec_metrics,
    spec_sun_hours]

/-- Witness for C1: the worked example's inputs produce the worked example's
values (exact rational forms of the spec's approximate figures). -/
theorem metrics_match_spec_witness :
    |(51.5 : ℚ)| ≤ 90 ∧ (0 : ℚ) ≤ 10000 ∧ (0 : ℚ) ≤ 1/10 ∧
      (0 : ℚ) ≤ 10 ∧ (0 : ℚ) ≤ 1500 ∧
      calculate_solar_farm_metrics 51.5 10000 (1/10) 10 1500 =
        Except.ok
          { annual_energy_kwh := 12191000/9
            annual_revenue_gbp := 1219100/9
            total_upfront_costs_gbp := 100000
            annual_running_costs := 1500
            net_annual_profit_gbp := 1205600/9
            break_even_years := some (1125/1507)
            annual_carbon_offset_tonnes := 12191/18
            pitches_equivalent := 500/357
            number_of_homes := 24382/63
            equivalent_cars := 60955/414 } := by
  refine ⟨by norm_num [abs_le], by norm_num, by norm_num, by norm_num,
    by norm_num, ?_⟩
  have habs : |(51.5 : ℚ)| = 51.5 := abs_of_pos (by norm_num)
  have hmax : max (6 - 4 * (51.5 : ℚ) / 90) 2 = 167/45 := by
    rw [max_eq_left] <;> norm_num
  refine (metrics_match_spec 51.5 10000 (1/10) 10 1500 (by norm_num [abs_le])
    (by norm_num) (by norm_num) (by norm_num) (by norm_num)).trans ?_
  simp only [spec_metrics, spec_sun_hours, habs, hmax]
  rw [if_pos (by norm_num)]
  norm_num [FarmMetrics.mk.injEq]

/-- C3: the estimator fails exactly when `|latitude| > 90`, the calculator
fails exactly under the same condition (no other failure modes for
non-negative inputs), and the concrete inputs 91 and -91 fail with the
InvalidInput error; on error no metrics record is produced. -/
theorem invalid_input_iff (lat area price rate run : ℚ)
    (hA : 0 ≤ area) (hP : 0 ≤ price) (hU : 0 ≤ rate) (hR : 0 ≤ run) :
    ((∃ e, estimate_peak_sun_hours lat = Except.error e) ↔ 90 < |lat|) ∧
    ((∃ e, calculate_solar_farm_metrics lat area price rate run =
        Except.error e) ↔ 90 < |lat|) ∧
    estimate_peak_sun_hours 91 = Except.error latErrMsg ∧
    estimate_peak_sun_hours (-91) = Except.error latErrMsg := by
  have h91 : |(91 : ℚ)| = 91 := abs_of_pos (by norm_num)
  have h91n : |(-91 : ℚ)| = 91 := by rw [abs_neg, h91]
  by_cases h : 90 < |lat| <;>
    simp [estimate_peak_sun_hours, calculate_solar_farm_metrics, h, h91, h91n]
  · norm_num
  · norm_num

/-- Witness for C3 at latitude 91 with zero financial inputs. -/
theorem invalid_input_iff_witness :
    (0 : ℚ) ≤ 0 ∧
      (((∃ e, estimate_peak_sun_hours 91 = Except.error e) ↔
          90 < |(91 : ℚ)|) ∧
       ((∃ e, calculate_solar_farm_metrics 91 0 0 0 0 = Except.error e) ↔
          90 < |(91 : ℚ)|) ∧
       estimate_peak_sun_hours 91 = Except.error latErrMsg ∧
       estimate_peak_sun_hours (-91) = Except.error latErrMsg) :=
  ⟨le_refl 0, invalid_input_iff 91 0 0 0 0 (le_refl 0) (le_refl 0)
    (le_refl 0) (le_refl 0)⟩

/-- C4: on the valid domain the calculator succeeds, its break-even field is
`upfront / net` exactly when the net annual profit is positive and is
infinite (`none`) otherwise; in particular it is infinite whenever the
running cost is at least the revenue, so the division is never performed
with a zero or negative divisor. -/
theorem break_even_guarded (lat area price rate run : ℚ) (h : |lat| ≤ 90) :
    ∃ m, calculate_solar_farm_metrics lat area price rate run =
        Except.ok m ∧
      m.break_even_years =
        (if 0 < m.net_annual_profit_gbp then
           some (m.total_upfront_costs_gbp / m.net_annual_profit_gbp)
         else none) ∧
      (m.annual_revenue_gbp ≤ run → m.break_even_years = none) := by
  simp only [calculate_solar_farm_metrics, estimate_ok lat h]
  refine ⟨_, rfl, rfl, ?_⟩
  intro hle
  simp only
  rw [if_neg]
  simp only at hle
  linarith

/-- Witness for C4 at the never-breaks-even configuration (running cost
exceeds revenue). -/
theorem break_even_guarded_witness :
    |(0 : ℚ)| ≤ 90 ∧
      ∃ m, calculate_solar_farm_metrics 0 100 0 1 500 = Except.ok m ∧
        m.break_even_years =
          (if 0 < m.net_annual_profit_gbp then
             some (m.total_upfront_costs_gbp / m.net_annual_profit_gbp)
           else none) ∧
        (m.annual_revenue_gbp ≤ 500 → m.break_even_years = none) :=
  ⟨by norm_num, break_even_guarded 0 100 0 1 500 (by norm_num)⟩

/-- C5: on the valid domain the estimated sun hours lie in [2, 6], the
estimator is symmetric in the sign of the latitude, and the endpoint
values are sun_hours 0 = 6, sun_hours 90 = 2, sun_hours (-90) = 2. -/
theorem sun_hours_range_symmetry (lat : ℚ) (h : |lat| ≤ 90) :
    (∃ s, estimate_peak_sun_hours lat = Except.ok s ∧ 2 ≤ s ∧ s ≤ 6) ∧
    estimate_peak_sun_hours lat = estimate_peak_sun_hours (-lat) ∧
    estimate_peak_sun_hours 0 = Except.ok 6 ∧
    estimate_peak_sun_hours 90 = Except.ok 2 ∧
    estimate_peak_sun_hours (-90) = Except.ok 2 := by
  have h0 : |(0 : ℚ)| = 0 := abs_zero
  have h90 : |(90 : ℚ)| = 90 := abs_of_pos (by norm_num)
  have h90n : |(-90 : ℚ)| = 90 := by rw [abs_neg, h90]
  refine ⟨⟨max (6 - 4 * |lat| / 90) 2, estimate_ok lat h,
      le_max_right _ _, ?_⟩, ?_, ?_, ?_, ?_⟩
  · apply max_le _ (by norm_num)
    nlinarith [abs_nonneg lat]
  · simp [estimate_peak_sun_hours, abs_neg]
  · rw [estimate_ok 0 (by norm_num), h0]
    norm_num
  · rw [estimate_ok 90 (by norm_num [h90]), h90]
    norm_num
  · rw [estimate_ok (-90) (by norm_num [h90n]), h90n]
    norm_num

/-- Witness for C5 at latitude -45. -/
theorem sun_hours_range_symmetry_witness :
    |(-45 : ℚ)| ≤ 90 ∧
      ((∃ s, estimate_peak_sun_hours (-45) = Except.ok s ∧ 2 ≤ s ∧ s ≤ 6) ∧
       estimate_peak_sun_hours (-45) = estimate_peak_sun_hours (-(-45)) ∧
       estimate_peak_sun_hours 0 = Except.ok 6 ∧
       estimate_peak_sun_hours 90 = Except.ok 2 ∧
       estimate_peak_sun_hours (-90) = Except.ok 2) :=
  ⟨by rw [abs_neg, abs_of_pos] <;> norm_num,
   sun_hours_range_symmetry (-45) (by rw [abs_neg, abs_of_pos] <;> norm_num)⟩

/-- C6: the calculator is deterministic and stateless: two invocations with
identical input tuples yield identical outputs; the result depends on
nothing but the five arguments. -/
theorem calculator_deterministic (a b c d e a2 b2 c2 d2 e2 : ℚ)
    (h : (a, b, c, d, e) = (a2, b2, c2, d2, e2)) :
    calculate_solar_farm_metrics a b c d e =
      calculate_solar_farm_metrics a2 b2 c2 d2 e2 := by
  simp only [Prod.mk.injEq] at h
  obtain ⟨rfl, rfl, rfl, rfl, rfl⟩ := h
  rfl

/-- Witness for C6 at the worked example's inputs. -/
theorem calculator_deterministic_witness :
    ((51.5 : ℚ), (10000 : ℚ), (1/10 : ℚ), (10 : ℚ), (1500 : ℚ)) =
        (51.5, 10000, 1/10, 10, 1500) ∧
      calculate_solar_farm_metrics 51.5 10000 (1/10) 10 1500 =
        calculate_solar_farm_metrics 51.5 10000 (1/10) 10 1500 :=
  ⟨rfl, calculator_deterministic 51.5 10000 (1/10) 10 1500
    51.5 10000 (1/10) 10 1500 rfl⟩

/-- C7: pitches_equivalent is homogeneous in the land area: doubling the
area while holding the other inputs fixed exactly doubles it. -/
theorem pitches_linear (lat area price rate run : ℚ) (h : |lat| ≤ 90)
    (hA : 0 ≤ area) :
    ∃ m m2,
      calculate_solar_farm_metrics lat area price rate run = Except.ok m ∧
      calculate_solar_farm_metrics lat (2 * area) price rate run =
        Except.ok m2 ∧
      m2.pitches_equivalent = 2 * m.pitches_equivalent := by
  simp only [calculate_solar_farm_metrics, estimate_ok lat h]
  refine ⟨_, _, rfl, rfl, ?_⟩
  simp only
  ring

/-- Witness for C7 at the worked example's inputs. -/
theorem pitches_linear_witness :
    |(51.5 : ℚ)| ≤ 90 ∧ (0 : ℚ) ≤ 10000 ∧
      ∃ m m2,
        calculate_solar_farm_metrics 51.5 10000 (1/10) 10 1500 =
          Except.ok m ∧
        calculate_solar_farm_metrics 51.5 (2 * 10000) (1/10) 10 1500 =
          Except.ok m2 ∧
        m2.pitches_equivalent = 2 * m.pitches_equivalent :=
  ⟨by norm_num [abs_le], by norm_num,
   pitches_linear 51.5 10000 (1/10) 10 1500 (by norm_num [abs_le])
     (by norm_num)⟩

/-- C8: the fourth element of the returned tuple is not derived at all: it
is the annual_running_costs argument passed through unchanged. -/
theorem running_costs_passthrough (lat area price rate run : ℚ)
    (h : |lat| ≤ 90) :
    ∃ m, calculate_solar_farm_metrics lat area price rate run =
        Except.ok m ∧
      m.annual_running_costs = run := by
  simp only [calculate_solar_farm_metrics, estimate_ok lat h]
  exact ⟨_, rfl, rfl⟩

/-- Witness for C8 at the worked example's inputs. -/
theorem running_costs_passthrough_witness :
    |(51.5 : ℚ)| ≤ 90 ∧
      ∃ m, calculate_solar_farm_metrics 51.5 10000 (1/10) 10 1500 =
          Except.ok m ∧
        m.annual_running_costs = 1500 :=
  ⟨by norm_num [abs_le],
   running_costs_passthrough 51.5 10000 (1/10) 10 1500
     (by norm_num [abs_le])⟩

/-- C9: every latitude in the 20-entry city table lies strictly inside
[-90, 90], so on a city's latitude the estimator, and hence the calculator
on any inputs, never raises InvalidInput. -/
theorem cities_in_range (p : String × ℚ) (hp : p ∈ cities) :
    |p.2| < 90 ∧
      (∃ s, estimate_peak_sun_hours p.2 = Except.ok s) ∧
      ∀ area price rate run : ℚ, ∃ m,
        calculate_solar_farm_metrics p.2 area price rate run =
          Except.ok m := by
  have hlt : |p.2| < 90 := by fin_cases hp <;> norm_num [abs_lt]
  have hle : |p.2| ≤ 90 := le_of_lt hlt
  refine ⟨hlt, ⟨_, estimate_ok p.2 hle⟩, ?_⟩
  intro area price rate run
  simp only [calculate_solar_farm_metrics, estimate_ok p.2 hle]
  exact ⟨_, rfl⟩

/-- Witness for C9 at London. -/
theorem cities_in_range_witness :
    ("London, UK", (51.5 : ℚ)) ∈ cities ∧
      (|(51.5 : ℚ)| < 90 ∧
       (∃ s, estimate_peak_sun_hours 51.5 = Except.ok s) ∧
       ∀ area price rate run : ℚ, ∃ m,
         calculate_solar_farm_metrics 51.5 area price rate run =
           Except.ok m) :=
  ⟨by simp [cities],
   cities_in_range ("London, UK", 51.5) (by simp [cities])⟩

/-- C10: on the valid domain the clamp is never strict: the estimator
agrees with the unclamped affine formula `6 - 4*|latitude|/90`. -/
theorem clamp_redundant (lat : ℚ) (h : |lat| ≤ 90) :
    estimate_peak_sun_hours lat = Except.ok (sun_hours_unclamped lat) := by
  rw [estimate_ok lat h]
  simp only [sun_hours_unclamped]
  rw [max_eq_left]
  linarith [h]

/-- Witness for C10 at latitude 51.5. -/
theorem clamp_redundant_witness :
    |(51.5 : ℚ)| ≤ 90 ∧
      estimate_peak_sun_hours 51.5 =
        Except.ok (sun_hours_unclamped 51.5) :=
  ⟨by norm_num [abs_le], clamp_redundant 51.5 (by norm_num [abs_le])⟩

end SolarFarm
